import Mathlib

/-!
Verification of the mortgage-simulator financial engine.

The engine lives in `MortgageCalculator` (amortization schedule, four ETF
tax-harvesting strategies, scenario combination generation, scenario
comparison).  JavaScript numbers are modelled as exact rationals (`ℚ`);
every definition below is a direct transcription of the corresponding
TypeScript source.  JS truthiness on numbers (`x || y`) is modelled by
`jsOrNum` (a number is falsy exactly when it is `0`; `ℚ` has no `NaN`).
Presentation-only string fields (`id`, `name`, built with locale-dependent
currency formatting) are omitted from the embedded records; the numeric
fields and the base-scenario identifier are kept.
-/

/-- One row of the amortization schedule (`AmortizationEntry` in the source). -/
structure AmortizationEntry where
  month : ℕ
  year : ℕ
  balance : ℚ
  interestPayment : ℚ
  principalPayment : ℚ
  extraPayment : ℚ
  totalPayment : ℚ
deriving DecidableEq, Repr

/-- The mutable loop state of `calculateAmortization`. -/
structure AmortState where
  schedule : List AmortizationEntry
  balance : ℚ
  totalInterest : ℚ
  totalPrincipal : ℚ
  totalExtra : ℚ
deriving DecidableEq, Repr

/-- The entry pushed for one month of the amortization loop: interest at the
monthly rate, scheduled principal `monthlyPayment - interest`, extra payment
`min extraYearly balance` in December months, overpayment clamp
`principalPayment = balance - extraPayment`, recorded balance
`max 0 (balance - principal - extra)` (the source applies `Math.max(0, ·)`
once when updating `balance` and again when recording the entry). -/
def amortEntry (P r ey : ℚ) (month : ℕ) (balance : ℚ) : AmortizationEntry :=
  let interestPayment := balance * r
  let principalPayment0 := P - interestPayment
  let extraPayment := if month % 12 = 0 ∧ 0 < ey then min ey balance else 0
  let principalPayment :=
    if balance < principalPayment0 + extraPayment then balance - extraPayment
    else principalPayment0
  let newBalance := max 0 (balance - principalPayment - extraPayment)
  { month := month
    year := (month + 11) / 12
    balance := max 0 newBalance
    interestPayment := interestPayment
    principalPayment := principalPayment
    extraPayment := extraPayment
    totalPayment := P + extraPayment }

/-- The `for (let month = 1; month <= totalMonths && balance > 0.01; month++)`
loop of `calculateAmortization`, as fuel recursion: `n` months of fuel remain,
`month` is the current 1-based month index. -/
def amortAux (P r ey : ℚ) : ℕ → ℕ → AmortState → AmortState
  | 0, _, s => s
  | n + 1, month, s =>
    if 1 / 100 < s.balance then
      let entry := amortEntry P r ey month s.balance
      let newBalance := max 0 (s.balance - entry.principalPayment - entry.extraPayment)
      let s' : AmortState :=
        { schedule := s.schedule ++ [entry]
          balance := newBalance
          totalInterest := s.totalInterest + entry.interestPayment
          totalPrincipal := s.totalPrincipal + (entry.principalPayment + entry.extraPayment)
          totalExtra :=
            if month % 12 = 0 ∧ 0 < ey then s.totalExtra + entry.extraPayment
            else s.totalExtra }
      if newBalance < 1 / 100 then s' else amortAux P r ey n (month + 1) s'
    else s

/-- Balance of the last schedule entry, or the default `d` when the schedule is
empty (models `schedule[schedule.length - 1]?.balance || 0` with `d = 0`:
a recorded balance of `0` is falsy in JS but `0 || 0 = 0` coincides). -/
def lastBal (l : List AmortizationEntry) (d : ℚ) : ℚ :=
  match l with
  | [] => d
  | e :: rest => lastBal rest e.balance

/-- Result record of `calculateAmortization`. -/
structure AmortizationResult where
  schedule : List AmortizationEntry
  totalInterest : ℚ
  totalPrincipal : ℚ
  totalExtra : ℚ
  finalBalance : ℚ
  payoffMonths : ℕ
deriving DecidableEq, Repr

/-- Embeds `MortgageCalculator.calculateAmortization` (scenario fields passed
positionally; `monthlyRate = interestRate / 100 / 12`). -/
def calculateAmortization (loanAmount interestRate monthlyPayment extraYearly : ℚ)
    (years : ℕ) : AmortizationResult :=
  let r := interestRate / 100 / 12
  let s := amortAux monthlyPayment r extraYearly (years * 12) 1
    { schedule := [], balance := loanAmount, totalInterest := 0,
      totalPrincipal := 0, totalExtra := 0 }
  { schedule := s.schedule
    totalInterest := s.totalInterest
    totalPrincipal := s.totalPrincipal
    totalExtra := s.totalExtra
    finalBalance := lastBal s.schedule 0
    payoffMonths := s.schedule.length }

/-- The amortization balance recurrence: threading the previous balance
(`prev`, initially the loan amount), each entry's recorded balance equals
`max 0 (prev - principalPayment - extraPayment)`. -/
def balanceChain (prev : ℚ) : List AmortizationEntry → Prop
  | [] => True
  | e :: rest =>
      e.balance = max 0 (prev - e.principalPayment - e.extraPayment) ∧
        balanceChain e.balance rest

instance balanceChainDecidable :
    ∀ (prev : ℚ) (l : List AmortizationEntry), Decidable (balanceChain prev l)
  | _, [] => isTrue trivial
  | _, e :: rest =>
    have : Decidable (balanceChain e.balance rest) := balanceChainDecidable e.balance rest
    inferInstanceAs (Decidable (_ ∧ _))

theorem lastBal_append (l : List AmortizationEntry) (e : AmortizationEntry) (d : ℚ) :
    lastBal (l ++ [e]) d = e.balance := by
  induction l generalizing d with
  | nil => rfl
  | cons a t ih => simpa [lastBal] using ih a.balance

theorem balanceChain_append (L : ℚ) (l : List AmortizationEntry) (e : AmortizationEntry)
    (hl : balanceChain L l)
    (he : e.balance = max 0 (lastBal l L - e.principalPayment - e.extraPayment)) :
    balanceChain L (l ++ [e]) := by
  induction l generalizing L with
  | nil => exact ⟨he, trivial⟩
  | cons a t ih =>
    exact ⟨hl.1, ih a.balance hl.2 he⟩

theorem amortEntry_balance (P r ey : ℚ) (month : ℕ) (b : ℚ) :
    (amortEntry P r ey month b).balance =
      max 0 (b - (amortEntry P r ey month b).principalPayment -
        (amortEntry P r ey month b).extraPayment) := by
  simp only [amortEntry]
  rw [← max_assoc, max_self]

theorem amortAux_chain (P r ey L : ℚ) :
    ∀ (n month : ℕ) (s : AmortState),
      balanceChain L s.schedule → lastBal s.schedule L = s.balance →
      balanceChain L (amortAux P r ey n month s).schedule ∧
        lastBal (amortAux P r ey n month s).schedule L = (amortAux P r ey n month s).balance := by
  intro n
  induction n with
  | zero => intro month s h1 h2; exact ⟨h1, h2⟩
  | succ n ih =>
    intro month s h1 h2
    rw [amortAux]
    by_cases hb : 1 / 100 < s.balance
    · simp only [hb, if_true]
      set entry := amortEntry P r ey month s.balance with hentry
      have hbal : entry.balance =
          max 0 (s.balance - entry.principalPayment - entry.extraPayment) :=
        amortEntry_balance P r ey month s.balance
      have hchain' : balanceChain L (s.schedule ++ [entry]) :=
        balanceChain_append L s.schedule entry h1 (by rw [hbal, h2])
      have hlast' : lastBal (s.schedule ++ [entry]) L = entry.balance :=
        lastBal_append s.schedule entry L
      by_cases hstop : max 0 (s.balance - entry.principalPayment - entry.extraPayment) < 1 / 100
      · simp only [hstop, if_true]
        exact ⟨hchain', by rw [hlast', hbal]⟩
      · simp only [hstop, if_false]
        exact ih (month + 1) _ hchain' (by rw [hlast', hbal])
    · simp only [hb, if_false]
      exact ⟨h1, h2⟩

theorem balanceChain_nonneg :
    ∀ (prev : ℚ) (l : List AmortizationEntry), balanceChain prev l →
      ∀ e ∈ l, 0 ≤ e.balance := by
  intro prev l
  induction l generalizing prev with
  | nil => intro _ e he; cases he
  | cons a t ih =>
    intro h e he
    rcases he with _ | ⟨_, ht⟩
    · rw [h.1]; exact le_max_left 0 _
    · exact ih a.balance h.2 e ht

/-- C1: in every amortization schedule, each entry's recorded balance is
nonnegative, and equals `max 0 (previous balance - principalPayment -
extraPayment)` where the balance before month 1 is the loan amount
(the `balanceChain` predicate states exactly this recurrence). -/
theorem amortization_balance_invariant (L rate P ey : ℚ) (years : ℕ) :
    balanceChain L (calculateAmortization L rate P ey years).schedule ∧
      ∀ e ∈ (calculateAmortization L rate P ey years).schedule, 0 ≤ e.balance := by
  have h := amortAux_chain P (rate / 100 / 12) ey L (years * 12) 1
    { schedule := [], balance := L, totalInterest := 0, totalPrincipal := 0, totalExtra := 0 }
    trivial rfl
  exact ⟨h.1, balanceChain_nonneg L _ h.1⟩

/-- Witness for C1: the invariant evaluated on the concrete loan
(amount 10, rate 0, payment 3, no extra, 1-year horizon). -/
theorem amortization_balance_invariant_witness :
    balanceChain 10 (calculateAmortization 10 0 3 0 1).schedule ∧
      ∀ e ∈ (calculateAmortization 10 0 3 0 1).schedule, 0 ≤ e.balance :=
  amortization_balance_invariant 10 0 3 0 1

/-- The four tax-gain-harvesting strategies.  The source strings are
`'none' | 'full' | 'partial' | 'optimal'`; `'partial'` is a Lean keyword,
so that constructor is named `part`. -/
inductive HarvestingStrategy where
  | none
  | full
  | part
  | optimal
deriving DecidableEq, Repr

/-- Constant `TAX_CONSTANTS.TAXABLE_PORTION` (0.70). -/
def TAXABLE_PORTION : ℚ := 7 / 10

/-- Constant `TAX_CONSTANTS.TAX_RATE` (0.26375). -/
def TAX_RATE : ℚ := 26375 / 100000

/-- Constant `TAX_CONSTANTS.SPARER_PAUSCHBETRAG` (1000). -/
def SPARER_PAUSCHBETRAG : ℚ := 1000

/-- Record `ETFResult`.  `totalHarvested` is an optional field in the source and is
omitted by the simple strategy, hence `Option ℚ`; `finalTax` is set by all
four strategies. -/
structure ETFResult where
  futureValue : ℚ
  gains : ℚ
  tax : ℚ
  afterTaxValue : ℚ
  afterTaxNominal : ℚ
  afterTaxReal : ℚ
  totalHarvested : Option ℚ
  finalTax : ℚ
  strategy : HarvestingStrategy
deriving DecidableEq, Repr

/-- The monthly loop of `calculateETFSimple`:
`value = value * (1 + monthlyReturn) + monthly`. -/
def simpleAux (monthly r : ℚ) : ℕ → ℚ → ℚ
  | 0, v => v
  | n + 1, v => simpleAux monthly r n (v * (1 + r) + monthly)

/-- Embeds `MortgageCalculator.calculateETFSimple` (strategy `'none'`). -/
def calculateETFSimple (initial monthly monthlyReturn : ℚ) (years : ℕ) : ETFResult :=
  let totalMonths := years * 12
  let value := simpleAux monthly monthlyReturn totalMonths initial
  let gains := value - initial - monthly * (totalMonths : ℚ)
  let taxableGains := gains * TAXABLE_PORTION
  let finalTax := max 0 (taxableGains - SPARER_PAUSCHBETRAG) * TAX_RATE
  let afterTaxValue := value - finalTax
  { futureValue := value
    gains := gains
    tax := 0
    afterTaxValue := afterTaxValue
    afterTaxNominal := afterTaxValue
    afterTaxReal := afterTaxValue / (1 + monthlyReturn * 12) ^ years
    totalHarvested := Option.none
    finalTax := finalTax
    strategy := HarvestingStrategy.none }

/-- One month of the shared inner loop of the full/partial harvest strategies:
`value = value * (1 + monthlyReturn); if (monthly > 0) { value += monthly;
costBasis += monthly }`, on the pair `(value, costBasis)`. -/
def growMonth (monthly r : ℚ) (s : ℚ × ℚ) : ℚ × ℚ :=
  let v := s.1 * (1 + r)
  if 0 < monthly then (v + monthly, s.2 + monthly) else (v, s.2)

/-- Runs `n` iterations of `growMonth` (the `for (let month = 1; month <= 12; ...)`
inner loop uses `n = 12`). -/
def growMonths (monthly r : ℚ) : ℕ → ℚ × ℚ → ℚ × ℚ
  | 0, s => s
  | n + 1, s => growMonths monthly r n (growMonth monthly r s)

/-- Loop state of `calculateETFFullHarvest`. -/
structure FullState where
  value : ℚ
  costBasis : ℚ
  totalTaxPaid : ℚ
  totalHarvested : ℚ
deriving DecidableEq, Repr

/-- One year of `calculateETFFullHarvest`: grow for 12 months, then if the
realized gain is positive, tax it, add it to the harvested total and reset
the cost basis to the current value. -/
def fullYearStep (monthly r : ℚ) (s : FullState) : FullState :=
  let g := growMonths monthly r 12 (s.value, s.costBasis)
  let gains := g.1 - g.2
  if 0 < gains then
    { value := g.1
      costBasis := g.1
      totalTaxPaid := s.totalTaxPaid +
        max 0 (gains * TAXABLE_PORTION - SPARER_PAUSCHBETRAG) * TAX_RATE
      totalHarvested := s.totalHarvested + gains }
  else
    { value := g.1, costBasis := g.2, totalTaxPaid := s.totalTaxPaid,
      totalHarvested := s.totalHarvested }

/-- The `for (let year = 1; year <= years; year++)` loop of the full strategy. -/
def fullYearsAux (monthly r : ℚ) : ℕ → FullState → FullState
  | 0, s => s
  | n + 1, s => fullYearsAux monthly r n (fullYearStep monthly r s)

/-- Embeds `MortgageCalculator.calculateETFFullHarvest` (strategy `'full'`). -/
def calculateETFFullHarvest (initial monthly monthlyReturn : ℚ) (years : ℕ) : ETFResult :=
  let totalMonths := years * 12
  let s := fullYearsAux monthly monthlyReturn years
    { value := initial, costBasis := initial, totalTaxPaid := 0, totalHarvested := 0 }
  let finalGains := s.value - initial - monthly * (totalMonths : ℚ)
  let afterTaxValue := s.value - s.totalTaxPaid
  { futureValue := s.value
    gains := finalGains
    tax := s.totalTaxPaid
    afterTaxValue := afterTaxValue
    afterTaxNominal := afterTaxValue
    afterTaxReal := afterTaxValue / (1 + monthlyReturn * 12) ^ years
    totalHarvested := some s.totalHarvested
    finalTax := 0
    strategy := HarvestingStrategy.full }

/-- Loop state of `calculateETFPartialHarvest`. -/
structure PartState where
  value : ℚ
  costBasis : ℚ
  totalHarvested : ℚ
deriving DecidableEq, Repr

/-- One year of `calculateETFPartialHarvest`: grow for 12 months, then harvest
`min(unrealizedGains, SPARER_PAUSCHBETRAG / TAXABLE_PORTION)` when the
unrealized gain is positive, shrinking the cost basis proportionally. -/
def harvestYearStep (monthly r : ℚ) (s : PartState) : PartState :=
  let g := growMonths monthly r 12 (s.value, s.costBasis)
  let unrealizedGains := g.1 - g.2
  if 0 < unrealizedGains then
    let harvestAmount := min unrealizedGains (SPARER_PAUSCHBETRAG / TAXABLE_PORTION)
    if 0 < harvestAmount then
      { value := g.1
        costBasis := g.2 * (1 - harvestAmount / unrealizedGains)
        totalHarvested := s.totalHarvested + harvestAmount }
    else
      { value := g.1, costBasis := g.2, totalHarvested := s.totalHarvested }
  else
    { value := g.1, costBasis := g.2, totalHarvested := s.totalHarvested }

/-- The yearly loop of the partial strategy. -/
def harvestYearsAux (monthly r : ℚ) : ℕ → PartState → PartState
  | 0, s => s
  | n + 1, s => harvestYearsAux monthly r n (harvestYearStep monthly r s)

/-- Embeds `MortgageCalculator.calculateETFPartialHarvest` (strategy `'partial'`). -/
def calculateETFPartialHarvest (initial monthly monthlyReturn : ℚ) (years : ℕ) : ETFResult :=
  let totalMonths := years * 12
  let s := harvestYearsAux monthly monthlyReturn years
    { value := initial, costBasis := initial, totalHarvested := 0 }
  let finalGains := s.value - initial - monthly * (totalMonths : ℚ)
  let remainingUnrealized := finalGains - s.totalHarvested
  let finalTaxable := remainingUnrealized * TAXABLE_PORTION
  let finalTax := max 0 (finalTaxable - SPARER_PAUSCHBETRAG) * TAX_RATE
  let afterTaxValue := s.value - finalTax
  { futureValue := s.value
    gains := finalGains
    tax := 0
    afterTaxValue := afterTaxValue
    afterTaxNominal := afterTaxValue
    afterTaxReal := afterTaxValue / (1 + monthlyReturn * 12) ^ years
    totalHarvested := some s.totalHarvested
    finalTax := finalTax
    strategy := HarvestingStrategy.part }

/-- One entry of the optimal strategy's per-contribution ledger. -/
structure Contribution where
  month : ℕ
  amount : ℚ
  costBasis : ℚ
deriving DecidableEq, Repr

/-- The first loop of `calculateETFOptimalHarvest`: grow the value monthly and
push a ledger entry `{month, amount: monthly, costBasis: monthly}` whenever
`monthly > 0`. -/
def optBuildAux (monthly r : ℚ) : ℕ → ℕ → ℚ → List Contribution → ℚ × List Contribution
  | 0, _, v, acc => (v, acc)
  | n + 1, m, v, acc =>
    let v' := v * (1 + r)
    if 0 < monthly then
      optBuildAux monthly r n (m + 1) (v' + monthly)
        (acc ++ [{ month := m, amount := monthly, costBasis := monthly }])
    else
      optBuildAux monthly r n (m + 1) v' acc

/-- The replay loop of `calculateETFOptimalHarvest` (used both for each
year-end value and for the final value): grow monthly and add the ledger
contribution found for that month, if any. -/
def replayAux (r : ℚ) (contribs : List Contribution) : ℕ → ℕ → ℚ → ℚ
  | 0, _, v => v
  | n + 1, m, v =>
    let v' := v * (1 + r)
    match contribs.find? (fun c => c.month == m) with
    | some c => replayAux r contribs n (m + 1) (v' + c.amount)
    | Option.none => replayAux r contribs n (m + 1) v'

/-- Replay of the first `n` months starting from `initial` at month 1. -/
def replayValue (initial r : ℚ) (contribs : List Contribution) (n : ℕ) : ℚ :=
  replayAux r contribs n 1 initial

/-- The yearly harvesting loop of `calculateETFOptimalHarvest`: each year
recomputes the year-end value by replay and the total cost basis from the raw
ledger (`initial` plus all contributions with `month <= yearEndMonth`), then
adds `min(unrealizedGains, SPARER_PAUSCHBETRAG / TAXABLE_PORTION)` to the
accumulator when positive.  (The source's `contributions` is a shallow copy
`[...monthlyContributions]` of the same ledger.) -/
def optHarvestAux (initial r : ℚ) (contribs : List Contribution) : ℕ → ℕ → ℚ → ℚ
  | 0, _, acc => acc
  | n + 1, year, acc =>
    let yearEndMonth := year * 12
    let yearValue := replayValue initial r contribs yearEndMonth
    let totalCostBasis := initial +
      ((contribs.filter (fun c => decide (c.month ≤ yearEndMonth))).map
        (fun c => c.amount)).sum
    let unrealizedGains := yearValue - totalCostBasis
    let harvestAmount := min unrealizedGains (SPARER_PAUSCHBETRAG / TAXABLE_PORTION)
    optHarvestAux initial r contribs n (year + 1)
      (if 0 < harvestAmount then acc + harvestAmount else acc)

/-- Embeds `MortgageCalculator.calculateETFOptimalHarvest` (strategy `'optimal'`). -/
def calculateETFOptimalHarvest (initial monthly monthlyReturn : ℚ) (years : ℕ) : ETFResult :=
  let totalMonths := years * 12
  let build := optBuildAux monthly monthlyReturn totalMonths 1 initial []
  let monthlyContributions := build.2
  let totalHarvested := optHarvestAux initial monthlyReturn monthlyContributions years 1 0
  let finalValue := replayValue initial monthlyReturn monthlyContributions totalMonths
  let finalGains := finalValue - initial - monthly * (totalMonths : ℚ)
  let remainingUnrealized := finalGains - totalHarvested
  let finalTaxable := remainingUnrealized * TAXABLE_PORTION
  let finalTax := max 0 (finalTaxable - SPARER_PAUSCHBETRAG) * TAX_RATE
  let afterTaxValue := finalValue - finalTax
  { futureValue := finalValue
    gains := finalGains
    tax := 0
    afterTaxValue := afterTaxValue
    afterTaxNominal := afterTaxValue
    afterTaxReal := afterTaxValue / (1 + monthlyReturn * 12) ^ years
    totalHarvested := some totalHarvested
    finalTax := finalTax
    strategy := HarvestingStrategy.optimal }

/-- Embeds `MortgageCalculator.calculateETF`: convert the annual percent return to a
monthly rate and dispatch on the strategy. -/
def calculateETF (initialETF monthlyETF etfReturn : ℚ) (years : ℕ)
    (strategy : HarvestingStrategy) : ETFResult :=
  let monthlyReturn := etfReturn / 100 / 12
  match strategy with
  | HarvestingStrategy.full => calculateETFFullHarvest initialETF monthlyETF monthlyReturn years
  | HarvestingStrategy.part => calculateETFPartialHarvest initialETF monthlyETF monthlyReturn years
  | HarvestingStrategy.optimal => calculateETFOptimalHarvest initialETF monthlyETF monthlyReturn years
  | HarvestingStrategy.none => calculateETFSimple initialETF monthlyETF monthlyReturn years

/-- C2: for every input, the `'none'` strategy returns
`gains = futureValue - initial - monthly * 12 * years`,
`finalTax = max 0 (gains * 0.70 - 1000) * 0.26375`,
`afterTaxValue = futureValue - finalTax`, and a during-simulation tax of 0. -/
theorem etf_simple_terminal_tax (initial monthly etfReturn : ℚ) (years : ℕ) :
    (calculateETF initial monthly etfReturn years HarvestingStrategy.none).gains =
      (calculateETF initial monthly etfReturn years HarvestingStrategy.none).futureValue -
        initial - monthly * 12 * (years : ℚ) ∧
    (calculateETF initial monthly etfReturn years HarvestingStrategy.none).finalTax =
      max 0 ((calculateETF initial monthly etfReturn years HarvestingStrategy.none).gains *
        (7 / 10) - 1000) * (26375 / 100000) ∧
    (calculateETF initial monthly etfReturn years HarvestingStrategy.none).afterTaxValue =
      (calculateETF initial monthly etfReturn years HarvestingStrategy.none).futureValue -
        (calculateETF initial monthly etfReturn years HarvestingStrategy.none).finalTax ∧
    (calculateETF initial monthly etfReturn years HarvestingStrategy.none).tax = 0 := by
  refine ⟨?_, ?_, ?_, ?_⟩ <;>
    (simp only [calculateETF, calculateETFSimple, TAXABLE_PORTION, TAX_RATE,
      SPARER_PAUSCHBETRAG]; try push_cast; try ring_nf)

/-- The monthly growth model shared by all four strategies when read off the
source: multiply by `1 + monthlyReturn`, then add the monthly contribution —
but the three harvesting strategies only add it when `monthly > 0`, which this
iterator reproduces. -/
def etfMonthIter (monthly r : ℚ) : ℕ → ℚ → ℚ
  | 0, v => v
  | n + 1, v => etfMonthIter monthly r n (v * (1 + r) + (if 0 < monthly then monthly else 0))

theorem etfMonthIter_add (monthly r : ℚ) :
    ∀ (a b : ℕ) (v : ℚ),
      etfMonthIter monthly r (a + b) v = etfMonthIter monthly r a (etfMonthIter monthly r b v) := by
  intro a b
  induction b generalizing a with
  | zero => intro v; rfl
  | succ b ih =>
    intro v
    have : a + (b + 1) = (a + b) + 1 := by omega
    rw [this, etfMonthIter, etfMonthIter, ih]

theorem simpleAux_eq_iter (monthly r : ℚ) (h : 0 ≤ monthly) :
    ∀ (n : ℕ) (v : ℚ), simpleAux monthly r n v = etfMonthIter monthly r n v := by
  intro n
  induction n with
  | zero => intro v; rfl
  | succ n ih =>
    intro v
    rw [simpleAux, etfMonthIter]
    rcases lt_or_eq_of_le h with hm | hm
    · rw [if_pos hm]; exact ih _
    · subst hm
      rw [if_neg (lt_irrefl 0), add_zero]
      exact ih _

theorem growMonth_fst (monthly r : ℚ) (s : ℚ × ℚ) :
    (growMonth monthly r s).1 = s.1 * (1 + r) + (if 0 < monthly then monthly else 0) := by
  rw [growMonth]
  split_ifs <;> simp

theorem growMonths_fst (monthly r : ℚ) :
    ∀ (n : ℕ) (s : ℚ × ℚ), (growMonths monthly r n s).1 = etfMonthIter monthly r n s.1 := by
  intro n
  induction n with
  | zero => intro s; rfl
  | succ n ih =>
    intro s
    rw [growMonths, etfMonthIter, ih, growMonth_fst]

theorem fullYearStep_value (monthly r : ℚ) (s : FullState) :
    (fullYearStep monthly r s).value = etfMonthIter monthly r 12 s.value := by
  rw [fullYearStep]
  have h := growMonths_fst monthly r 12 (s.value, s.costBasis)
  split_ifs <;> simpa using h

theorem fullYearsAux_value (monthly r : ℚ) :
    ∀ (y : ℕ) (s : FullState),
      (fullYearsAux monthly r y s).value = etfMonthIter monthly r (12 * y) s.value := by
  intro y
  induction y with
  | zero => intro s; rfl
  | succ y ih =>
    intro s
    have h12 : 12 * (y + 1) = 12 * y + 12 := by omega
    rw [fullYearsAux, ih, fullYearStep_value, h12, etfMonthIter_add]

theorem harvestYearStep_value (monthly r : ℚ) (s : PartState) :
    (harvestYearStep monthly r s).value = etfMonthIter monthly r 12 s.value := by
  have h := growMonths_fst monthly r 12 (s.value, s.costBasis)
  simp only [harvestYearStep]
  split_ifs <;> exact h

theorem harvestYearsAux_value (monthly r : ℚ) :
    ∀ (y : ℕ) (s : PartState),
      (harvestYearsAux monthly r y s).value = etfMonthIter monthly r (12 * y) s.value := by
  intro y
  induction y with
  | zero => intro s; rfl
  | succ y ih =>
    intro s
    have h12 : 12 * (y + 1) = 12 * y + 12 := by omega
    rw [harvestYearsAux, ih, harvestYearStep_value, h12, etfMonthIter_add]

/-- The ledger built by the optimal strategy's first loop: one entry per month
in `[start, start + len)` when `monthly > 0`, nothing otherwise. -/
def optLedger (monthly : ℚ) (start len : ℕ) : List Contribution :=
  if 0 < monthly then
    (List.range' start len).map
      (fun k => { month := k, amount := monthly, costBasis := monthly })
  else []

theorem optLedger_succ (monthly : ℚ) (hm : 0 < monthly) (start len : ℕ) :
    optLedger monthly start (len + 1) =
      { month := start, amount := monthly, costBasis := monthly } ::
        optLedger monthly (start + 1) len := by
  simp only [optLedger, if_pos hm, List.range'_succ, List.map_cons]

theorem optBuildAux_snd (monthly r : ℚ) :
    ∀ (n m : ℕ) (v : ℚ) (acc : List Contribution),
      (optBuildAux monthly r n m v acc).2 = acc ++ optLedger monthly m n := by
  intro n
  induction n with
  | zero =>
    intro m v acc
    rw [optBuildAux, optLedger]
    split_ifs <;> simp
  | succ n ih =>
    intro m v acc
    by_cases hm : 0 < monthly
    · rw [optBuildAux]
      simp only [if_pos hm]
      rw [ih, optLedger_succ monthly hm]
      simp
    · rw [optBuildAux]
      simp only [if_neg hm]
      rw [ih]
      simp [optLedger, hm]

theorem find?_optLedger (monthly : ℚ) (hm : 0 < monthly) :
    ∀ (len start m : ℕ),
      (optLedger monthly start len).find? (fun c => c.month == m) =
        if start ≤ m ∧ m < start + len
        then some { month := m, amount := monthly, costBasis := monthly }
        else Option.none := by
  intro len
  induction len with
  | zero =>
    intro start m
    rw [optLedger, if_pos hm]
    rw [if_neg (by omega)]
    simp
  | succ len ih =>
    intro start m
    rw [optLedger, if_pos hm, List.range'_succ]
    simp only [List.map_cons, List.find?_cons]
    by_cases h : start = m
    · subst h
      simp only [beq_self_eq_true]
      rw [if_pos ⟨le_refl start, by omega⟩]
    · have hbeq : ((start : ℕ) == m) = false := by
        simp [h]
      simp only [hbeq]
      have hfold : (List.range' (start + 1) len).map
          (fun k => ({ month := k, amount := monthly, costBasis := monthly } : Contribution)) =
          optLedger monthly (start + 1) len := by
        rw [optLedger, if_pos hm]
      rw [hfold, ih]
      split_ifs with h1 h2 <;> first | rfl | omega

theorem replayAux_optLedger (monthly r : ℚ) (N : ℕ) :
    ∀ (rem msta : ℕ) (v : ℚ), 1 ≤ msta → msta + rem ≤ N + 1 →
      replayAux r (optLedger monthly 1 N) rem msta v = etfMonthIter monthly r rem v := by
  intro rem
  induction rem with
  | zero => intro msta v _ _; rfl
  | succ rem ih =>
    intro msta v h1 h2
    rw [replayAux, etfMonthIter]
    by_cases hm : 0 < monthly
    · rw [find?_optLedger monthly hm N 1 msta, if_pos ⟨h1, by omega⟩]
      simp only [if_pos hm]
      exact ih (msta + 1) _ (by omega) (by omega)
    · have hfind : (optLedger monthly 1 N).find? (fun c => c.month == msta) = Option.none := by
        rw [optLedger, if_neg hm]
        rfl
      rw [hfind, if_neg hm, add_zero]
      exact ih (msta + 1) _ (by omega) (by omega)

theorem calculateETF_futureValue (initial monthly etfReturn : ℚ) (years : ℕ)
    (h : 0 ≤ monthly) (strat : HarvestingStrategy) :
    (calculateETF initial monthly etfReturn years strat).futureValue =
      etfMonthIter monthly (etfReturn / 100 / 12) (years * 12) initial := by
  cases strat with
  | none =>
    simp only [calculateETF, calculateETFSimple]
    exact simpleAux_eq_iter monthly (etfReturn / 100 / 12) h (years * 12) initial
  | full =>
    simp only [calculateETF, calculateETFFullHarvest]
    rw [fullYearsAux_value]
    rw [Nat.mul_comm 12 years]
  | part =>
    simp only [calculateETF, calculateETFPartialHarvest]
    rw [harvestYearsAux_value]
    rw [Nat.mul_comm 12 years]
  | optimal =>
    simp only [calculateETF, calculateETFOptimalHarvest, replayValue]
    rw [optBuildAux_snd, List.nil_append]
    exact replayAux_optLedger monthly (etfReturn / 100 / 12) (years * 12)
      (years * 12) 1 initial (le_refl 1) (by omega)

theorem calculateETF_gains (initial monthly etfReturn : ℚ) (years : ℕ)
    (strat : HarvestingStrategy) :
    (calculateETF initial monthly etfReturn years strat).gains =
      (calculateETF initial monthly etfReturn years strat).futureValue -
        initial - monthly * ((years * 12 : ℕ) : ℚ) := by
  cases strat <;>
    simp [calculateETF, calculateETFSimple, calculateETFFullHarvest,
      calculateETFPartialHarvest, calculateETFOptimalHarvest]

/-- C3 counterexample: with a negative monthly contribution the `'none'`
strategy adds the contribution unconditionally while the harvesting
strategies add it only when `monthly > 0`, so the strategies do not return
the same `futureValue` (or `gains`) for every input tuple.  Here
`(initial, monthly, annualReturnPercent, years) = (0, -12, 0, 1)`. -/
theorem etf_strategies_future_value_differs :
    (calculateETF 0 (-12) 0 1 HarvestingStrategy.none).futureValue ≠
      (calculateETF 0 (-12) 0 1 HarvestingStrategy.full).futureValue ∧
    (calculateETF 0 (-12) 0 1 HarvestingStrategy.none).gains ≠
      (calculateETF 0 (-12) 0 1 HarvestingStrategy.full).gains := by
  refine ⟨?_, ?_⟩ <;>
    norm_num [calculateETF, calculateETFSimple, calculateETFFullHarvest, simpleAux,
      fullYearsAux, fullYearStep, growMonths, growMonth, TAXABLE_PORTION, TAX_RATE,
      SPARER_PAUSCHBETRAG]

/-- C3 (amended): for every input with a nonnegative monthly contribution,
all four strategies apply the identical monthly growth model (multiply by
`1 + monthlyReturn`, then add the contribution), so any two strategies
return the same `futureValue` and the same `gains`.  (For negative monthly
contributions the `'none'` strategy differs, see the counterexample.) -/
theorem etf_strategies_agree_nonneg_monthly (initial monthly etfReturn : ℚ)
    (years : ℕ) (h : 0 ≤ monthly) (s1 s2 : HarvestingStrategy) :
    (calculateETF initial monthly etfReturn years s1).futureValue =
      (calculateETF initial monthly etfReturn years s2).futureValue ∧
    (calculateETF initial monthly etfReturn years s1).gains =
      (calculateETF initial monthly etfReturn years s2).gains := by
  have h1 := calculateETF_futureValue initial monthly etfReturn years h s1
  have h2 := calculateETF_futureValue initial monthly etfReturn years h s2
  refine ⟨by rw [h1, h2], ?_⟩
  rw [calculateETF_gains initial monthly etfReturn years s1,
    calculateETF_gains initial monthly etfReturn years s2, h1, h2]

/-- Witness for C3 (amended) at `(100, 12, 6, 1)`, strategies `'none'` and
`'optimal'`. -/
theorem etf_strategies_agree_nonneg_monthly_witness :
    (calculateETF 100 12 6 1 HarvestingStrategy.none).futureValue =
      (calculateETF 100 12 6 1 HarvestingStrategy.optimal).futureValue ∧
    (calculateETF 100 12 6 1 HarvestingStrategy.none).gains =
      (calculateETF 100 12 6 1 HarvestingStrategy.optimal).gains :=
  etf_strategies_agree_nonneg_monthly 100 12 6 1 (by norm_num)
    HarvestingStrategy.none HarvestingStrategy.optimal

theorem amortEntry_extra (P r ey : ℚ) (month : ℕ) (b : ℚ) :
    (amortEntry P r ey month b).extraPayment =
      if month % 12 = 0 ∧ 0 < ey then min ey b else 0 := rfl

theorem amortEntry_principal (P r ey : ℚ) (month : ℕ) (b : ℚ) :
    (amortEntry P r ey month b).principalPayment =
      if b < (P - b * r) + (if month % 12 = 0 ∧ 0 < ey then min ey b else 0)
      then b - (if month % 12 = 0 ∧ 0 < ey then min ey b else 0)
      else P - b * r := rfl

theorem amortAux_balance_le (P r ey L : ℚ) (hr : 0 ≤ r) (hd : 0 < P - L * r) :
    ∀ (n month : ℕ) (s : AmortState), 0 ≤ s.balance → s.balance ≤ L →
      (amortAux P r ey n month s).balance ≤
        max (1 / 100) (s.balance - (n : ℚ) * (P - L * r)) := by
  intro n
  induction n with
  | zero =>
    intro month s _ _
    rw [amortAux]
    norm_num
  | succ n ih =>
    intro month s h0 hbL
    simp only [amortAux]
    by_cases hb : 1 / 100 < s.balance
    · rw [if_pos hb]
      set E := (amortEntry P r ey month s.balance).extraPayment with hE_def
      set PP := (amortEntry P r ey month s.balance).principalPayment with hPP_def
      have hE : 0 ≤ E := by
        rw [hE_def, amortEntry_extra]
        split_ifs with h
        · exact le_min (le_of_lt h.2) (by linarith)
        · exact le_refl 0
      by_cases hcl : s.balance < (P - s.balance * r) +
          (if month % 12 = 0 ∧ 0 < ey then min ey s.balance else 0)
      · have hPP : PP = s.balance - E := by
          rw [hPP_def, amortEntry_principal, if_pos hcl, hE_def, amortEntry_extra]
        have hzero : s.balance - PP - E = 0 := by rw [hPP]; ring
        have hnb : max 0 (s.balance - PP - E) = 0 := by rw [hzero, max_self]
        rw [hnb, if_pos (by norm_num : (0 : ℚ) < 1 / 100)]
        calc (0 : ℚ) ≤ 1 / 100 := by norm_num
        _ ≤ _ := le_max_left _ _
      · have hPP : PP = P - s.balance * r := by
          rw [hPP_def, amortEntry_principal, if_neg hcl]
        have hEif : E = if month % 12 = 0 ∧ 0 < ey then min ey s.balance else 0 := by
          rw [hE_def, amortEntry_extra]
        have hge : (P - s.balance * r) +
            (if month % 12 = 0 ∧ 0 < ey then min ey s.balance else 0) ≤ s.balance :=
          le_of_not_lt hcl
        have h0' : 0 ≤ s.balance - PP - E := by rw [hPP, hEif]; linarith
        have hnb : max 0 (s.balance - PP - E) = s.balance - PP - E := max_eq_right h0'
        have hdec : s.balance - PP - E ≤ s.balance - (P - L * r) := by
          have hmul : s.balance * r ≤ L * r := mul_le_mul_of_nonneg_right hbL hr
          rw [hPP]
          linarith
        rw [hnb]
        by_cases hbr : s.balance - PP - E < 1 / 100
        · rw [if_pos hbr]
          calc (AmortState.balance _) = s.balance - PP - E := rfl
          _ ≤ 1 / 100 := le_of_lt hbr
          _ ≤ _ := le_max_left _ _
        · rw [if_neg hbr]
          refine le_trans (ih (month + 1) _ h0'
            (by show s.balance - PP - E ≤ L; linarith)) ?_
          refine max_le_max (le_refl _) ?_
          push_cast
          have : s.balance - PP - E - (n : ℚ) * (P - L * r) ≤
              s.balance - ((n : ℚ) + 1) * (P - L * r) := by ring_nf; linarith
          simpa using this
    · rw [if_neg hb]
      calc s.balance ≤ 1 / 100 := le_of_not_lt hb
      _ ≤ _ := le_max_left _ _

theorem lastBal_default_eq (e : AmortizationEntry) (t : List AmortizationEntry) (d d' : ℚ) :
    lastBal (e :: t) d = lastBal (e :: t) d' := rfl

/-- C4 (amended): if the interest rate is nonnegative, the monthly payment
exceeds the first month's interest `loanAmount * monthlyRate`, and the
requested horizon is long enough
(`loanAmount - 0.01 ≤ horizonMonths * (monthlyPayment - loanAmount * monthlyRate)`),
then the schedule ends at a final balance at most the stopping epsilon 0.01.
The original claim fails for short horizons — paying off within *any* requested
horizon is false (see the counterexample). -/
theorem amortization_payoff_with_sufficient_horizon (L rate P ey : ℚ) (years : ℕ)
    (hL : 0 ≤ L) (hr : 0 ≤ rate)
    (hp : L * (rate / 100 / 12) < P)
    (hN : L - 1 / 100 ≤ ((years * 12 : ℕ) : ℚ) * (P - L * (rate / 100 / 12))) :
    (calculateAmortization L rate P ey years).finalBalance ≤ 1 / 100 := by
  have hr' : 0 ≤ rate / 100 / 12 := by positivity
  have hd : 0 < P - L * (rate / 100 / 12) := by linarith
  have hb := amortAux_balance_le P (rate / 100 / 12) ey L hr' hd (years * 12) 1
    { schedule := [], balance := L, totalInterest := 0, totalPrincipal := 0, totalExtra := 0 }
    hL (le_refl L)
  have hmax : max (1 / 100) (L - ((years * 12 : ℕ) : ℚ) * (P - L * (rate / 100 / 12))) =
      1 / 100 := max_eq_left (by linarith)
  have hchain := amortAux_chain P (rate / 100 / 12) ey L (years * 12) 1
    { schedule := [], balance := L, totalInterest := 0, totalPrincipal := 0, totalExtra := 0 }
    trivial rfl
  simp only [calculateAmortization]
  set res := amortAux P (rate / 100 / 12) ey (years * 12) 1
    { schedule := [], balance := L, totalInterest := 0, totalPrincipal := 0,
      totalExtra := 0 } with hres
  have hbal : res.balance ≤ 1 / 100 := by
    refine le_trans ?_ (le_of_eq hmax)
    simpa using hb
  cases hsch : res.schedule with
  | nil => norm_num [lastBal]
  | cons e t =>
    rw [lastBal_default_eq e t 0 L]
    rw [hsch] at hchain
    rw [hchain.2]
    exact hbal

/-- Witness for C4 (amended): loan 10 at 0% with payment 1 and a 1-year
horizon (12 months suffice since `10 - 0.01 ≤ 12 * 1`). -/
theorem amortization_payoff_with_sufficient_horizon_witness :
    (calculateAmortization 10 0 1 0 1).finalBalance ≤ 1 / 100 :=
  amortization_payoff_with_sufficient_horizon 10 0 1 0 1 (by norm_num) (by norm_num)
    (by norm_num) (by norm_num)

/-- C4 counterexample: the loan (amount 1000, rate 0%, payment 1, no extra)
satisfies `monthlyPayment > loanAmount * monthlyRate` (1 > 0), yet with the
requested horizon of 1 year the schedule runs all 12 months, every recorded
balance stays at 988 or above, and the final balance is 988 — the loan is
not paid off within this requested horizon. -/
theorem amortization_payoff_horizon_counterexample :
    (1000 : ℚ) * (0 / 100 / 12) < 1 ∧
    (calculateAmortization 1000 0 1 0 1).schedule =
      [⟨1, 1, 999, 0, 1, 0, 1⟩, ⟨2, 1, 998, 0, 1, 0, 1⟩, ⟨3, 1, 997, 0, 1, 0, 1⟩,
       ⟨4, 1, 996, 0, 1, 0, 1⟩, ⟨5, 1, 995, 0, 1, 0, 1⟩, ⟨6, 1, 994, 0, 1, 0, 1⟩,
       ⟨7, 1, 993, 0, 1, 0, 1⟩, ⟨8, 1, 992, 0, 1, 0, 1⟩, ⟨9, 1, 991, 0, 1, 0, 1⟩,
       ⟨10, 1, 990, 0, 1, 0, 1⟩, ⟨11, 1, 989, 0, 1, 0, 1⟩, ⟨12, 1, 988, 0, 1, 0, 1⟩] ∧
    (calculateAmortization 1000 0 1 0 1).finalBalance = 988 := by
  refine ⟨by norm_num, ?_, ?_⟩ <;>
    norm_num [calculateAmortization, amortAux, amortEntry, lastBal, max_def, min_def]

theorem amortAux_schedule_mem (P r ey : ℚ) (Q : AmortizationEntry → Prop)
    (hQ : ∀ (month : ℕ) (b : ℚ), Q (amortEntry P r ey month b)) :
    ∀ (n month : ℕ) (s : AmortState), (∀ e ∈ s.schedule, Q e) →
      ∀ e ∈ (amortAux P r ey n month s).schedule, Q e := by
  intro n
  induction n with
  | zero => intro month s hs; exact hs
  | succ n ih =>
    intro month s hs
    simp only [amortAux]
    by_cases hb : 1 / 100 < s.balance
    · rw [if_pos hb]
      have hs' : ∀ e ∈ s.schedule ++ [amortEntry P r ey month s.balance], Q e := by
        intro e he
        rcases List.mem_append.mp he with h | h
        · exact hs e h
        · rcases List.mem_singleton.mp h with rfl
          exact hQ month s.balance
      by_cases hstop : max 0 (s.balance - (amortEntry P r ey month s.balance).principalPayment -
          (amortEntry P r ey month s.balance).extraPayment) < 1 / 100
      · rw [if_pos hstop]; exact hs'
      · rw [if_neg hstop]; exact ih (month + 1) _ hs'
    · rw [if_neg hb]; exact hs

/-- C10: every schedule entry records `totalPayment = monthlyPayment +
extraPayment`; consequently in any entry where the overpayment clamp reduced
the principal (`principalPayment + interestPayment < monthlyPayment`) the
recorded `totalPayment` strictly exceeds
`interestPayment + principalPayment + extraPayment`, i.e. the identity
`totalPayment = interest + principal + extra` does not hold for all inputs. -/
theorem amortization_total_payment (L rate P ey : ℚ) (years : ℕ) :
    ∀ e ∈ (calculateAmortization L rate P ey years).schedule,
      e.totalPayment = P + e.extraPayment ∧
      (e.principalPayment + e.interestPayment < P →
        e.interestPayment + e.principalPayment + e.extraPayment < e.totalPayment) := by
  intro e he
  simp only [calculateAmortization] at he
  have hQ := amortAux_schedule_mem P (rate / 100 / 12) ey
    (fun e => e.totalPayment = P + e.extraPayment) (fun _ _ => rfl)
    (years * 12) 1
    { schedule := [], balance := L, totalInterest := 0, totalPrincipal := 0, totalExtra := 0 }
    (by intro e h; cases h) e he
  refine ⟨hQ, fun hlt => ?_⟩
  rw [hQ]
  linarith

/-- Witness for C10: for the loan (amount 10, rate 0, payment 3, no extra,
1 year) the month-4 entry is the clamped payoff month: `totalPayment = 3`
while `interest + principal + extra = 1`. -/
theorem amortization_total_payment_witness :
    (⟨4, 1, 0, 0, 1, 0, 3⟩ : AmortizationEntry).totalPayment =
      3 + (⟨4, 1, 0, 0, 1, 0, 3⟩ : AmortizationEntry).extraPayment ∧
    ((⟨4, 1, 0, 0, 1, 0, 3⟩ : AmortizationEntry).principalPayment +
        (⟨4, 1, 0, 0, 1, 0, 3⟩ : AmortizationEntry).interestPayment < 3 →
      (⟨4, 1, 0, 0, 1, 0, 3⟩ : AmortizationEntry).interestPayment +
          (⟨4, 1, 0, 0, 1, 0, 3⟩ : AmortizationEntry).principalPayment +
          (⟨4, 1, 0, 0, 1, 0, 3⟩ : AmortizationEntry).extraPayment <
        (⟨4, 1, 0, 0, 1, 0, 3⟩ : AmortizationEntry).totalPayment) :=
  amortization_total_payment 10 0 3 0 1 ⟨4, 1, 0, 0, 1, 0, 3⟩
    (by norm_num [calculateAmortization, amortAux, amortEntry, max_def, min_def])

theorem ledger_map_sum (monthly : ℚ) (B : ℕ) :
    (((List.range' 1 B).map
        (fun k => ({ month := k, amount := monthly, costBasis := monthly } : Contribution))).map
      (fun c => c.amount)).sum = (B : ℚ) * monthly := by
  rw [List.map_map]
  have hconst : ((fun (c : Contribution) => c.amount) ∘
      (fun k => ({ month := k, amount := monthly, costBasis := monthly } : Contribution))) =
      Function.const ℕ monthly := rfl
  rw [hconst, List.map_const, List.sum_replicate, List.length_range', nsmul_eq_mul]

theorem optLedger_filter_sum (monthly : ℚ) (B N : ℕ) (hB : B ≤ N) :
    (((optLedger monthly 1 N).filter (fun c => decide (c.month ≤ B))).map
      (fun c => c.amount)).sum = if 0 < monthly then (B : ℚ) * monthly else 0 := by
  by_cases hm : 0 < monthly
  · rw [if_pos hm, optLedger, if_pos hm]
    have hN : (N - B) + B = N := by omega
    have hsplit : List.range' 1 N = List.range' 1 B ++ List.range' (1 + B) (N - B) := by
      have happ := List.range'_append 1 B (N - B) 1
      rw [one_mul] at happ
      rw [happ, hN]
    rw [hsplit, List.map_append, List.filter_append]
    have h1 : ((List.range' 1 B).map
        (fun k => ({ month := k, amount := monthly, costBasis := monthly } : Contribution))).filter
          (fun c => decide (c.month ≤ B)) =
        (List.range' 1 B).map
          (fun k => ({ month := k, amount := monthly, costBasis := monthly } : Contribution)) := by
      refine List.filter_eq_self.mpr ?_
      intro c hc
      rcases List.mem_map.mp hc with ⟨k, hk, rfl⟩
      have hmem := List.mem_range'_1.mp hk
      simp only [decide_eq_true_eq]
      omega
    have h2 : ((List.range' (1 + B) (N - B)).map
        (fun k => ({ month := k, amount := monthly, costBasis := monthly } : Contribution))).filter
          (fun c => decide (c.month ≤ B)) = [] := by
      refine List.filter_eq_nil_iff.mpr ?_
      intro c hc
      rcases List.mem_map.mp hc with ⟨k, hk, rfl⟩
      have hmem := List.mem_range'_1.mp hk
      simp only [decide_eq_true_eq]
      omega
    rw [h1, h2, List.append_nil]
    exact ledger_map_sum monthly B
  · rw [if_neg hm, optLedger, if_neg hm]
    rfl

/-- The harvest the `'optimal'` strategy books for a single year, recomputed
from the raw inputs only: year-end value under the shared monthly growth
model, cost basis `initial + (contributions made through month 12*year)`
(prior years' harvests never reduce it), and the harvested amount
`min(unrealized gain, SPARER_PAUSCHBETRAG / TAXABLE_PORTION)` counted only
when positive. -/
def optimalYearHarvest (initial monthly r : ℚ) (year : ℕ) : ℚ :=
  let yearValue := etfMonthIter monthly r (year * 12) initial
  let basis := initial + (if 0 < monthly then ((year * 12 : ℕ) : ℚ) * monthly else 0)
  let amt := min (yearValue - basis) (SPARER_PAUSCHBETRAG / TAXABLE_PORTION)
  if 0 < amt then amt else 0

theorem optHarvestAux_sum (initial monthly r : ℚ) (years : ℕ) :
    ∀ (rem year : ℕ) (acc : ℚ), year + rem ≤ years + 1 →
      optHarvestAux initial r (optLedger monthly 1 (years * 12)) rem year acc =
        acc + ∑ j ∈ Finset.Ico year (year + rem), optimalYearHarvest initial monthly r j := by
  intro rem
  induction rem with
  | zero => intro year acc _; simp [optHarvestAux]
  | succ rem ih =>
    intro year acc hle
    simp only [optHarvestAux]
    have hyv : replayValue initial r (optLedger monthly 1 (years * 12)) (year * 12) =
        etfMonthIter monthly r (year * 12) initial := by
      apply replayAux_optLedger
      · exact le_refl 1
      · omega
    have hbasis := optLedger_filter_sum monthly (year * 12) (years * 12) (by omega)
    rw [hyv, hbasis]
    rw [ih (year + 1) _ (by omega)]
    rw [Finset.sum_eq_sum_Ico_succ_bot (by omega : year < year + (rem + 1))]
    have harr : year + (rem + 1) = (year + 1) + rem := by omega
    rw [harr]
    simp only [optimalYearHarvest]
    split_ifs <;> ring

/-- C6: for every input, the `'optimal'` strategy's `totalHarvested` is the
sum over years `1..years` of the per-year amount
`min(yearEndValue(y) - (initial + contributions through month 12*y), 1000/0.70)`
counted when positive, where the cost basis is recomputed each year from the
raw contribution ledger — prior years' harvests never reduce it
(`optimalYearHarvest` is a function of the raw inputs only). -/
theorem etf_optimal_harvest_sum (initial monthly monthlyReturn : ℚ) (years : ℕ) :
    (calculateETFOptimalHarvest initial monthly monthlyReturn years).totalHarvested =
      some (∑ j ∈ Finset.Icc 1 years, optimalYearHarvest initial monthly monthlyReturn j) := by
  simp only [calculateETFOptimalHarvest]
  rw [optBuildAux_snd, List.nil_append]
  rw [optHarvestAux_sum initial monthly monthlyReturn years (years) 1 0 (by omega)]
  rw [zero_add]
  congr 1
  have h1 : 1 + years = years + 1 := by omega
  rw [h1, Nat.Ico_succ_right]

/-- C7: in the `'partial'` strategy, each single year's harvest increment is
bounded by the allowance ceiling
`SPARER_PAUSCHBETRAG / TAXABLE_PORTION = 1000 / 0.70 ≈ 1428.571`, and the
during-simulation `tax` field of the result is exactly 0. -/
theorem etf_part_harvest_allowance_bound :
    (∀ (monthly r : ℚ) (s : PartState),
      (harvestYearStep monthly r s).totalHarvested ≤
        s.totalHarvested + SPARER_PAUSCHBETRAG / TAXABLE_PORTION) ∧
    ∀ (initial monthly monthlyReturn : ℚ) (years : ℕ),
      (calculateETFPartialHarvest initial monthly monthlyReturn years).tax = 0 := by
  constructor
  · intro monthly r s
    have hcap : (0 : ℚ) < SPARER_PAUSCHBETRAG / TAXABLE_PORTION := by
      norm_num [SPARER_PAUSCHBETRAG, TAXABLE_PORTION]
    have hmin := min_le_right
      ((growMonths monthly r 12 (s.value, s.costBasis)).1 -
        (growMonths monthly r 12 (s.value, s.costBasis)).2)
      (SPARER_PAUSCHBETRAG / TAXABLE_PORTION)
    simp only [harvestYearStep]
    split_ifs <;> dsimp only <;> linarith
  · intro initial monthly monthlyReturn years
    rfl

/-- A base `Scenario` (presentation-only `name` field kept as a plain string;
the optional `extraYearlyLimit` models the TS optional field). -/
structure Scenario where
  id : String
  name : String
  loanAmount : ℚ
  interestRate : ℚ
  monthlyPayment : ℚ
  extraYearlyLimit : Option ℚ
deriving DecidableEq, Repr

/-- A `ScenarioCombination`.  The derived `id`/`name` display strings (built
with locale-dependent currency formatting) are omitted; the numeric fields
and `baseScenarioId` are kept. -/
structure ScenarioCombination where
  baseScenarioId : String
  loanAmount : ℚ
  interestRate : ℚ
  monthlyPayment : ℚ
  extraYearly : ℚ
  initialETF : ℚ
  monthlyETF : ℚ
deriving DecidableEq, Repr

/-- The skip test of `generateCombinations`:
`scenario.extraYearlyLimit !== undefined && extraYearly > scenario.extraYearlyLimit`. -/
def exceedsLimit (lim? : Option ℚ) (extraYearly : ℚ) : Bool :=
  match lim? with
  | some lim => decide (lim < extraYearly)
  | Option.none => false

/-- Embeds `MortgageCalculator.generateCombinations`: the cross-product of base
scenarios with the selected initial-ETF, monthly-ETF and extra-yearly option
lists, skipping combinations that exceed a scenario's extra-yearly limit. -/
def generateCombinations (scenarios : List Scenario)
    (selectedInitialETF selectedMonthlyETF selectedExtraYearly : List ℚ) :
    List ScenarioCombination :=
  scenarios.flatMap fun sc =>
    selectedInitialETF.flatMap fun initialETF =>
      selectedMonthlyETF.flatMap fun monthlyETF =>
        selectedExtraYearly.filterMap fun extraYearly =>
          if exceedsLimit sc.extraYearlyLimit extraYearly then Option.none
          else some
            { baseScenarioId := sc.id
              loanAmount := sc.loanAmount
              interestRate := sc.interestRate
              monthlyPayment := sc.monthlyPayment
              extraYearly := extraYearly
              initialETF := initialETF
              monthlyETF := monthlyETF }

theorem length_flatMap_const {α β : Type} (l : List α) (f : α → List β) (k : ℕ)
    (h : ∀ a ∈ l, (f a).length = k) : (l.flatMap f).length = l.length * k := by
  induction l with
  | nil => simp
  | cons a t ih =>
    rw [List.flatMap_cons, List.length_append, h a (by simp),
      ih (fun x hx => h x (by simp [hx])), List.length_cons]
    ring

theorem genComb_inner_len (sc : Scenario) (h : sc.extraYearlyLimit = Option.none)
    (i m : ℚ) (selExtra : List ℚ) :
    (selExtra.filterMap (fun extraYearly =>
      if exceedsLimit sc.extraYearlyLimit extraYearly then Option.none
      else some
        ({ baseScenarioId := sc.id
           loanAmount := sc.loanAmount
           interestRate := sc.interestRate
           monthlyPayment := sc.monthlyPayment
           extraYearly := extraYearly
           initialETF := i
           monthlyETF := m } : ScenarioCombination))).length = selExtra.length := by
  induction selExtra with
  | nil => rfl
  | cons e t ih =>
    simp [List.filterMap_cons, h, exceedsLimit, ih]

/-- C8: `generateCombinations` (a) only emits combinations that come from a
scenario whose extra-yearly limit, when set, is not exceeded, and (b) when no
scenario sets a limit it emits exactly
`|scenarios| * |initial options| * |monthly options| * |extra options|`
combinations. -/
theorem generate_combinations_spec (scenarios : List Scenario)
    (selInit selMonthly selExtra : List ℚ) :
    (∀ c ∈ generateCombinations scenarios selInit selMonthly selExtra,
      ∃ sc ∈ scenarios, c.baseScenarioId = sc.id ∧
        ∀ lim, sc.extraYearlyLimit = some lim → c.extraYearly ≤ lim) ∧
    ((∀ sc ∈ scenarios, sc.extraYearlyLimit = Option.none) →
      (generateCombinations scenarios selInit selMonthly selExtra).length =
        scenarios.length * selInit.length * selMonthly.length * selExtra.length) := by
  constructor
  · intro c hc
    simp only [generateCombinations, List.mem_flatMap, List.mem_filterMap] at hc
    rcases hc with ⟨sc, hsc, i, hi, m, hm, e, he, heq⟩
    refine ⟨sc, hsc, ?_⟩
    by_cases hlim : exceedsLimit sc.extraYearlyLimit e = true
    · rw [if_pos hlim] at heq
      exact absurd heq (by simp)
    · rw [if_neg hlim] at heq
      rcases Option.some.inj heq with rfl
      refine ⟨rfl, fun lim hsome => ?_⟩
      rw [hsome] at hlim
      simp only [exceedsLimit, decide_eq_true_eq] at hlim
      exact le_of_not_lt hlim
  · intro hnone
    rw [generateCombinations]
    rw [length_flatMap_const scenarios _
      (selInit.length * (selMonthly.length * selExtra.length)) ?_]
    · ring
    · intro sc hsc
      rw [length_flatMap_const selInit _ (selMonthly.length * selExtra.length) ?_]
      intro i _
      rw [length_flatMap_const selMonthly _ selExtra.length ?_]
      intro m _
      exact genComb_inner_len sc (hnone sc hsc) i m selExtra

/-- Witness for C8: one scenario without a limit, option lists
`[0]`, `[0]`, `[0, 5]`: the first emitted combination comes from that
scenario, and the count is `1 * 1 * 1 * 2`. -/
theorem generate_combinations_spec_witness :
    (∃ sc ∈ [({ id := "a", name := "A", loanAmount := 100, interestRate := 3, monthlyPayment := 1, extraYearlyLimit := Option.none } : Scenario)],
      ({ baseScenarioId := "a", loanAmount := 100, interestRate := 3, monthlyPayment := 1, extraYearly := 0, initialETF := 0, monthlyETF := 0 } : ScenarioCombination).baseScenarioId = sc.id ∧
      ∀ lim, sc.extraYearlyLimit = some lim →
        ({ baseScenarioId := "a", loanAmount := 100, interestRate := 3, monthlyPayment := 1, extraYearly := 0, initialETF := 0, monthlyETF := 0 } : ScenarioCombination).extraYearly ≤ lim) ∧
    (generateCombinations [({ id := "a", name := "A", loanAmount := 100, interestRate := 3, monthlyPayment := 1, extraYearlyLimit := Option.none } : Scenario)] [0] [0] [0, 5]).length = 1 * 1 * 1 * 2 := by
  constructor
  · exact (generate_combinations_spec [{ id := "a", name := "A", loanAmount := 100, interestRate := 3, monthlyPayment := 1, extraYearlyLimit := Option.none }] [0] [0] [(0 : ℚ), 5]).1
      { baseScenarioId := "a", loanAmount := 100, interestRate := 3, monthlyPayment := 1, extraYearly := 0, initialETF := 0, monthlyETF := 0 }
      (by simp [generateCombinations, exceedsLimit])
  · have h := (generate_combinations_spec [{ id := "a", name := "A", loanAmount := 100, interestRate := 3, monthlyPayment := 1, extraYearlyLimit := Option.none }] [0] [0] [(0 : ℚ), 5]).2
      (by intro sc hsc; rcases List.mem_singleton.mp hsc with rfl; rfl)
    simpa using h

/-- Embeds `MortgageCalculator.getBalanceAtYear`: simulate `targetYear + 5` years,
take the entry at month `targetYear * 12`, or the last entry if the loan paid
off earlier, or 0 if the schedule is empty (`find(...) || schedule[len-1]`
then `entry ? entry.balance : 0`). -/
def getBalanceAtYear (loanAmount interestRate monthlyPayment extraYearly : ℚ)
    (targetYear : ℕ) : ℚ :=
  let amortization :=
    calculateAmortization loanAmount interestRate monthlyPayment extraYearly (targetYear + 5)
  let targetMonth := targetYear * 12
  match amortization.schedule.find? (fun e => e.month == targetMonth) with
  | some e => e.balance
  | Option.none =>
    match amortization.schedule.getLast? with
    | some e => e.balance
    | Option.none => 0

/-- Embeds `MortgageCalculator.getPayoffYears`: a 50-year simulation's
`payoffMonths / 12`. -/
def getPayoffYears (loanAmount interestRate monthlyPayment extraYearly : ℚ) : ℚ :=
  ((calculateAmortization loanAmount interestRate monthlyPayment extraYearly 50).payoffMonths :
    ℚ) / 12

/-- JS `x || y` on an optionally-present number: a present nonzero value is
kept, an absent value or a present `0` (falsy) falls through to `y`
(`ℚ` has no `NaN`, the other falsy number). -/
def jsOrNum : Option ℚ → ℚ → ℚ
  | some v, d => if v = 0 then d else v
  | Option.none, d => d

/-- The checkpoint block `compareScenarios` computes identically at years
10, 20 and 30: remaining balance, cumulative paid and interest over the
truncated schedule, equity `propertyValue - balance`, after-tax ETF value at
that year, and `netWorth = equity + etfValue`. -/
structure CheckpointFields where
  balance : ℚ
  totalPaid : ℚ
  totalInterest : ℚ
  equity : ℚ
  etfValue : ℚ
  netWorth : ℚ
deriving DecidableEq, Repr

def checkpointAt (c : ScenarioCombination) (propertyValue etfReturn : ℚ)
    (strategy : HarvestingStrategy) (year : ℕ) : CheckpointFields :=
  let balance := getBalanceAtYear c.loanAmount c.interestRate c.monthlyPayment c.extraYearly year
  let am := calculateAmortization c.loanAmount c.interestRate c.monthlyPayment c.extraYearly year
  let equity := propertyValue - balance
  let etf := calculateETF c.initialETF c.monthlyETF etfReturn year strategy
  { balance := balance
    totalPaid := am.totalInterest + am.totalPrincipal
    totalInterest := am.totalInterest
    equity := equity
    etfValue := etf.afterTaxValue
    netWorth := equity + etf.afterTaxValue }

/-- One element of `compareScenarios`' output.  The spread-in combination
fields are omitted (they are copied verbatim from the input); the checkpoint
fields are `Option`-valued since the source sets them only when
`horizonYears` reaches 10/20/30. -/
structure ComparisonResult where
  payoffYears : ℚ
  etfDetails : ETFResult
  balance10y : Option ℚ
  totalPaid10y : Option ℚ
  totalInterest10y : Option ℚ
  equity10y : Option ℚ
  etfValue10y : Option ℚ
  netWorth10y : Option ℚ
  balance20y : Option ℚ
  totalPaid20y : Option ℚ
  totalInterest20y : Option ℚ
  equity20y : Option ℚ
  etfValue20y : Option ℚ
  netWorth20y : Option ℚ
  balance30y : Option ℚ
  totalPaid30y : Option ℚ
  totalInterest30y : Option ℚ
  equity30y : Option ℚ
  etfValue30y : Option ℚ
  netWorth30y : Option ℚ
  etfValue : ℚ
  netWorth : ℚ
deriving DecidableEq, Repr

/-- The per-combination body of `MortgageCalculator.compareScenarios`,
including the final
`netWorth = result[netWorth${horizonYears}y] || netWorth20y || netWorth10y || 0`
selection with JS falsy-fallthrough semantics. -/
def compareOne (c : ScenarioCombination) (propertyValue etfReturn : ℚ)
    (horizonYears : ℕ) (strategy : HarvestingStrategy) : ComparisonResult :=
  let etfDetails := calculateETF c.initialETF c.monthlyETF etfReturn horizonYears strategy
  let cp10 :=
    if 10 ≤ horizonYears then some (checkpointAt c propertyValue etfReturn strategy 10)
    else Option.none
  let cp20 :=
    if 20 ≤ horizonYears then some (checkpointAt c propertyValue etfReturn strategy 20)
    else Option.none
  let cp30 :=
    if 30 ≤ horizonYears then some (checkpointAt c propertyValue etfReturn strategy 30)
    else Option.none
  { payoffYears := getPayoffYears c.loanAmount c.interestRate c.monthlyPayment c.extraYearly
    etfDetails := etfDetails
    balance10y := cp10.map (fun cp => cp.balance)
    totalPaid10y := cp10.map (fun cp => cp.totalPaid)
    totalInterest10y := cp10.map (fun cp => cp.totalInterest)
    equity10y := cp10.map (fun cp => cp.equity)
    etfValue10y := cp10.map (fun cp => cp.etfValue)
    netWorth10y := cp10.map (fun cp => cp.netWorth)
    balance20y := cp20.map (fun cp => cp.balance)
    totalPaid20y := cp20.map (fun cp => cp.totalPaid)
    totalInterest20y := cp20.map (fun cp => cp.totalInterest)
    equity20y := cp20.map (fun cp => cp.equity)
    etfValue20y := cp20.map (fun cp => cp.etfValue)
    netWorth20y := cp20.map (fun cp => cp.netWorth)
    balance30y := cp30.map (fun cp => cp.balance)
    totalPaid30y := cp30.map (fun cp => cp.totalPaid)
    totalInterest30y := cp30.map (fun cp => cp.totalInterest)
    equity30y := cp30.map (fun cp => cp.equity)
    etfValue30y := cp30.map (fun cp => cp.etfValue)
    netWorth30y := cp30.map (fun cp => cp.netWorth)
    etfValue := etfDetails.afterTaxValue
    netWorth := jsOrNum
      (if horizonYears = 10 then cp10.map (fun cp => cp.netWorth)
       else if horizonYears = 20 then cp20.map (fun cp => cp.netWorth)
       else if horizonYears = 30 then cp30.map (fun cp => cp.netWorth)
       else Option.none)
      (jsOrNum (cp20.map (fun cp => cp.netWorth))
        (jsOrNum (cp10.map (fun cp => cp.netWorth)) 0)) }

/-- Embeds `MortgageCalculator.compareScenarios`: map `compareOne` over the
combinations. -/
def compareScenarios (combinations : List ScenarioCombination)
    (propertyValue etfReturn : ℚ) (horizonYears : ℕ) (strategy : HarvestingStrategy) :
    List ComparisonResult :=
  combinations.map (fun c => compareOne c propertyValue etfReturn horizonYears strategy)

/-- The dynamic-key read `result[netWorth${horizonYears}y]`: the checkpoint
field matching the configured horizon, absent for any other horizon value. -/
def finalNetWorthLookup (res : ComparisonResult) (horizonYears : ℕ) : Option ℚ :=
  if horizonYears = 10 then res.netWorth10y
  else if horizonYears = 20 then res.netWorth20y
  else if horizonYears = 30 then res.netWorth30y
  else Option.none

theorem compareOne_netWorth (c : ScenarioCombination) (pv er : ℚ) (hy : ℕ)
    (strat : HarvestingStrategy) :
    (compareOne c pv er hy strat).netWorth =
      jsOrNum (finalNetWorthLookup (compareOne c pv er hy strat) hy)
        (jsOrNum ((compareOne c pv er hy strat).netWorth20y)
          (jsOrNum ((compareOne c pv er hy strat).netWorth10y) 0)) := by
  simp only [compareOne, finalNetWorthLookup]

/-- C9: in every `ComparisonResult` produced by `compareScenarios`, for each
checkpoint year present (10/20/30, i.e. those ≤ the horizon) the recorded
`netWorth` equals `equity + etfValue` exactly, with
`equity = propertyValue - balance`. -/
theorem compare_networth_composition (combos : List ScenarioCombination)
    (propertyValue etfReturn : ℚ) (horizonYears : ℕ) (strategy : HarvestingStrategy) :
    ∀ res ∈ compareScenarios combos propertyValue etfReturn horizonYears strategy,
      (10 ≤ horizonYears → ∃ b v, res.balance10y = some b ∧
        res.equity10y = some (propertyValue - b) ∧ res.etfValue10y = some v ∧
        res.netWorth10y = some ((propertyValue - b) + v)) ∧
      (20 ≤ horizonYears → ∃ b v, res.balance20y = some b ∧
        res.equity20y = some (propertyValue - b) ∧ res.etfValue20y = some v ∧
        res.netWorth20y = some ((propertyValue - b) + v)) ∧
      (30 ≤ horizonYears → ∃ b v, res.balance30y = some b ∧
        res.equity30y = some (propertyValue - b) ∧ res.etfValue30y = some v ∧
        res.netWorth30y = some ((propertyValue - b) + v)) := by
  intro res hres
  rcases List.mem_map.mp hres with ⟨c, _, rfl⟩
  refine ⟨fun h10 => ?_, fun h20 => ?_, fun h30 => ?_⟩
  · exact ⟨getBalanceAtYear c.loanAmount c.interestRate c.monthlyPayment c.extraYearly 10,
      (calculateETF c.initialETF c.monthlyETF etfReturn 10 strategy).afterTaxValue,
      by simp [compareOne, checkpointAt, h10], by simp [compareOne, checkpointAt, h10],
      by simp [compareOne, checkpointAt, h10], by simp [compareOne, checkpointAt, h10]⟩
  · exact ⟨getBalanceAtYear c.loanAmount c.interestRate c.monthlyPayment c.extraYearly 20,
      (calculateETF c.initialETF c.monthlyETF etfReturn 20 strategy).afterTaxValue,
      by simp [compareOne, checkpointAt, h20], by simp [compareOne, checkpointAt, h20],
      by simp [compareOne, checkpointAt, h20], by simp [compareOne, checkpointAt, h20]⟩
  · exact ⟨getBalanceAtYear c.loanAmount c.interestRate c.monthlyPayment c.extraYearly 30,
      (calculateETF c.initialETF c.monthlyETF etfReturn 30 strategy).afterTaxValue,
      by simp [compareOne, checkpointAt, h30], by simp [compareOne, checkpointAt, h30],
      by simp [compareOne, checkpointAt, h30], by simp [compareOne, checkpointAt, h30]⟩

/-- Witness for C9 at a concrete input: one zero-loan combination, property
value 5, 0% ETF return, horizon 10, strategy `'none'`. -/
theorem compare_networth_composition_witness :
    ∃ b v,
      (compareOne { baseScenarioId := "s", loanAmount := 0, interestRate := 0, monthlyPayment := 0, extraYearly := 0, initialETF := 0, monthlyETF := 0 } 5 0 10 HarvestingStrategy.none).balance10y = some b ∧
      (compareOne { baseScenarioId := "s", loanAmount := 0, interestRate := 0, monthlyPayment := 0, extraYearly := 0, initialETF := 0, monthlyETF := 0 } 5 0 10 HarvestingStrategy.none).equity10y = some (5 - b) ∧
      (compareOne { baseScenarioId := "s", loanAmount := 0, interestRate := 0, monthlyPayment := 0, extraYearly := 0, initialETF := 0, monthlyETF := 0 } 5 0 10 HarvestingStrategy.none).etfValue10y = some v ∧
      (compareOne { baseScenarioId := "s", loanAmount := 0, interestRate := 0, monthlyPayment := 0, extraYearly := 0, initialETF := 0, monthlyETF := 0 } 5 0 10 HarvestingStrategy.none).netWorth10y = some ((5 - b) + v) :=
  (compare_networth_composition
    [{ baseScenarioId := "s", loanAmount := 0, interestRate := 0, monthlyPayment := 0, extraYearly := 0, initialETF := 0, monthlyETF := 0 }]
    5 0 10 HarvestingStrategy.none
    (compareOne { baseScenarioId := "s", loanAmount := 0, interestRate := 0, monthlyPayment := 0, extraYearly := 0, initialETF := 0, monthlyETF := 0 } 5 0 10 HarvestingStrategy.none)
    (by simp [compareScenarios])).1 (by norm_num)

/-- C5 (amended): the final `netWorth` equals the checkpoint matching the
configured horizon whenever that checkpoint is present **and nonzero**; a
present checkpoint whose value is 0 is falsy under the JS `||` chain, so the
code falls through to the 20-year then 10-year value (see the
counterexample). -/
theorem compare_final_networth_nonzero_checkpoint (combos : List ScenarioCombination)
    (propertyValue etfReturn : ℚ) (horizonYears : ℕ) (strategy : HarvestingStrategy)
    (res : ComparisonResult) (v : ℚ)
    (hres : res ∈ compareScenarios combos propertyValue etfReturn horizonYears strategy)
    (hlook : finalNetWorthLookup res horizonYears = some v) (hv : v ≠ 0) :
    res.netWorth = v := by
  rcases List.mem_map.mp hres with ⟨c, _, rfl⟩
  rw [compareOne_netWorth, hlook]
  simp [jsOrNum, hv]

theorem amortAux_stop (P r ey : ℚ) (n month : ℕ) (s : AmortState)
    (h : ¬ (1 / 100 < s.balance)) : amortAux P r ey n month s = s := by
  cases n with
  | zero => rfl
  | succ n => rw [amortAux, if_neg h]

theorem amortAux_step_break (P r ey : ℚ) (n month : ℕ) (s : AmortState)
    (h1 : 1 / 100 < s.balance)
    (h2 : max 0 (s.balance - (amortEntry P r ey month s.balance).principalPayment -
      (amortEntry P r ey month s.balance).extraPayment) < 1 / 100) :
    amortAux P r ey (n + 1) month s =
      { schedule := s.schedule ++ [amortEntry P r ey month s.balance]
        balance := max 0 (s.balance - (amortEntry P r ey month s.balance).principalPayment -
          (amortEntry P r ey month s.balance).extraPayment)
        totalInterest := s.totalInterest + (amortEntry P r ey month s.balance).interestPayment
        totalPrincipal := s.totalPrincipal +
          ((amortEntry P r ey month s.balance).principalPayment +
            (amortEntry P r ey month s.balance).extraPayment)
        totalExtra :=
          if month % 12 = 0 ∧ 0 < ey then
            s.totalExtra + (amortEntry P r ey month s.balance).extraPayment
          else s.totalExtra } := by
  rw [amortAux, if_pos h1, if_pos h2]

theorem amortAux_step_go (P r ey : ℚ) (n month : ℕ) (s : AmortState)
    (h1 : 1 / 100 < s.balance)
    (h2 : ¬ (max 0 (s.balance - (amortEntry P r ey month s.balance).principalPayment -
      (amortEntry P r ey month s.balance).extraPayment) < 1 / 100)) :
    amortAux P r ey (n + 1) month s =
      amortAux P r ey n (month + 1)
        { schedule := s.schedule ++ [amortEntry P r ey month s.balance]
          balance := max 0 (s.balance - (amortEntry P r ey month s.balance).principalPayment -
            (amortEntry P r ey month s.balance).extraPayment)
          totalInterest := s.totalInterest + (amortEntry P r ey month s.balance).interestPayment
          totalPrincipal := s.totalPrincipal +
            ((amortEntry P r ey month s.balance).principalPayment +
              (amortEntry P r ey month s.balance).extraPayment)
          totalExtra :=
            if month % 12 = 0 ∧ 0 < ey then
              s.totalExtra + (amortEntry P r ey month s.balance).extraPayment
            else s.totalExtra } := by
  rw [amortAux, if_pos h1, if_neg h2]

set_option maxRecDepth 16384 in
/-- Witness for C5 (amended): a zero loan with property value 5, horizon 10 —
the 10-year checkpoint is present with the nonzero value 5, and the final
`netWorth` is 5. -/
theorem compare_final_networth_nonzero_checkpoint_witness :
    (compareOne { baseScenarioId := "s", loanAmount := 0, interestRate := 0, monthlyPayment := 0, extraYearly := 0, initialETF := 0, monthlyETF := 0 } 5 0 10 HarvestingStrategy.none).netWorth = 5 := by
  have hbal : getBalanceAtYear 0 0 0 0 10 = 0 := by
    norm_num [getBalanceAtYear, calculateAmortization, amortAux_stop, lastBal]
  have hetf : calculateETF 0 0 0 10 HarvestingStrategy.none =
      { futureValue := 0, gains := 0, tax := 0, afterTaxValue := 0, afterTaxNominal := 0,
        afterTaxReal := 0, totalHarvested := Option.none, finalTax := 0,
        strategy := HarvestingStrategy.none } := by
    norm_num [calculateETF, calculateETFSimple, simpleAux, TAXABLE_PORTION, TAX_RATE,
      SPARER_PAUSCHBETRAG, max_def]
  have hcp : checkpointAt { baseScenarioId := "s", loanAmount := 0, interestRate := 0, monthlyPayment := 0, extraYearly := 0, initialETF := 0, monthlyETF := 0 } 5 0 HarvestingStrategy.none 10 =
      { balance := 0, totalPaid := 0, totalInterest := 0, equity := 5, etfValue := 0,
        netWorth := 5 } := by
    norm_num [checkpointAt, hbal, hetf, calculateAmortization, amortAux_stop, lastBal]
  exact compare_final_networth_nonzero_checkpoint
    [{ baseScenarioId := "s", loanAmount := 0, interestRate := 0, monthlyPayment := 0, extraYearly := 0, initialETF := 0, monthlyETF := 0 }]
    5 0 10 HarvestingStrategy.none _ 5 (by simp [compareScenarios])
    (by simp [finalNetWorthLookup, compareOne, hcp]) (by norm_num)

set_option maxRecDepth 16384 in
/-- C5 counterexample: for the combination with a zero loan and a monthly ETF
contribution of 1 at 0% return, property value −240 and horizon 20, the
20-year checkpoint is present with `netWorth20y = 0` — yet the final
`netWorth` is −120 (the 10-year value): the JS `||` chain treats the present
value 0 as falsy and falls through to a lower checkpoint, contradicting the
claim that the exact checkpoint is used whenever present. -/
theorem compare_final_networth_counterexample :
    ((compareScenarios [{ baseScenarioId := "s", loanAmount := 0, interestRate := 0, monthlyPayment := 0, extraYearly := 0, initialETF := 0, monthlyETF := 1 }] (-240) 0 20 HarvestingStrategy.none).map
      (fun res => (res.netWorth20y, res.netWorth))) = [(some 0, -120)] := by
  have hbal10 : getBalanceAtYear 0 0 0 0 10 = 0 := by
    norm_num [getBalanceAtYear, calculateAmortization, amortAux_stop, lastBal]
  have hbal20 : getBalanceAtYear 0 0 0 0 20 = 0 := by
    norm_num [getBalanceAtYear, calculateAmortization, amortAux_stop, lastBal]
  have hetf10 : calculateETF 0 1 0 10 HarvestingStrategy.none =
      { futureValue := 120, gains := 0, tax := 0, afterTaxValue := 120, afterTaxNominal := 120,
        afterTaxReal := 120, totalHarvested := Option.none, finalTax := 0,
        strategy := HarvestingStrategy.none } := by
    norm_num [calculateETF, calculateETFSimple, simpleAux, TAXABLE_PORTION, TAX_RATE,
      SPARER_PAUSCHBETRAG, max_def]
  have hetf20 : calculateETF 0 1 0 20 HarvestingStrategy.none =
      { futureValue := 240, gains := 0, tax := 0, afterTaxValue := 240, afterTaxNominal := 240,
        afterTaxReal := 240, totalHarvested := Option.none, finalTax := 0,
        strategy := HarvestingStrategy.none } := by
    norm_num [calculateETF, calculateETFSimple, simpleAux, TAXABLE_PORTION, TAX_RATE,
      SPARER_PAUSCHBETRAG, max_def]
  have hcp10 : checkpointAt { baseScenarioId := "s", loanAmount := 0, interestRate := 0, monthlyPayment := 0, extraYearly := 0, initialETF := 0, monthlyETF := 1 } (-240) 0 HarvestingStrategy.none 10 =
      { balance := 0, totalPaid := 0, totalInterest := 0, equity := -240, etfValue := 120,
        netWorth := -120 } := by
    norm_num [checkpointAt, hbal10, hetf10, calculateAmortization, amortAux_stop, lastBal]
  have hcp20 : checkpointAt { baseScenarioId := "s", loanAmount := 0, interestRate := 0, monthlyPayment := 0, extraYearly := 0, initialETF := 0, monthlyETF := 1 } (-240) 0 HarvestingStrategy.none 20 =
      { balance := 0, totalPaid := 0, totalInterest := 0, equity := -240, etfValue := 240,
        netWorth := 0 } := by
    norm_num [checkpointAt, hbal20, hetf20, calculateAmortization, amortAux_stop, lastBal]
  simp [compareScenarios, compareOne, jsOrNum, hcp10, hcp20]
